import Mathlib

/-!
Shallow embedding of the Stage Selection & Dependency Workflow Engine of the
video-editing agent pipeline (source files `agents/coordinator.py` and
`agents/pipeline_orchestrator.py`).

Modelling conventions:
* Python dicts loaded from / dumped to JSON are modelled as Lean structures;
  keys read with `dict.get(key, default)` become `Option` fields read with
  `Option.getD`.
* `time.time()` timestamps are passed in explicitly as a `now : Nat` argument;
  they influence no control flow.
* Float scores are modelled as `ℚ` (the claims involve only exact comparisons
  and an exact arithmetic mean).
* Calls to the external Gemini inference service, including the JSON
  extraction/repair and parsing of the response, are modelled by an
  `InferParse` argument: `ok v` is a response that parsed successfully into
  the typed value `v`, `err msg` is any exception raised inside the `try`
  block (HTTP error, invalid JSON, missing keys).  This matches the Python
  `try: ... except Exception as e:` boundary exactly.
* Functions that mutate the persisted `workflow_plan.json` and return `bool`
  are modelled as `Option WorkflowPlan`: `some plan2` is "returned True with
  the file now holding plan2", `none` is "returned False, file unchanged".
* Console printing has no state effect and is dropped; `_check_next_steps`
  (which only prints) is modelled as the pure function computing which step,
  if any, it announces.
-/

/-- Step / tracking status strings used by the coordinator:
PENDING, IN_PROGRESS, COMPLETED, FAILED, SKIPPED. -/
inductive Status where
  | PENDING
  | IN_PROGRESS
  | COMPLETED
  | FAILED
  | SKIPPED
deriving DecidableEq, Repr

/-- One entry of the inference response's `workflow_sequence`
(`coordinator.py`, prompt of `select_required_agents` and consumption in
`create_workflow_plan`).  Optional keys are read with `.get`. -/
structure WorkflowItem where
  agent : String
  reason : Option String
  cost_impact : Option String
  skippable : Option Bool
deriving DecidableEq, Repr

/-- One entry of the inference response's `skipped_agents` list. -/
structure SkippedAgent where
  agent : String
  reason : String
deriving DecidableEq, Repr

/-- The agent-selection payload returned by
`Coordinator.select_required_agents` (either parsed from the inference
response or built by its fallback branch).  Metadata fields not read by any
modelled operation (`estimated_cost_category`, `optimization_summary`, ...)
are omitted. -/
structure Selection where
  selected_agents : List String
  workflow_sequence : List WorkflowItem
  skipped_agents : List SkippedAgent
  selection_method : Option String
  error : Option String
deriving DecidableEq, Repr

/-- Outcome of one external inference call together with the JSON
clean-up/parse performed inside the same `try` block: `ok v` when the cleaned
response parsed into `v`, `err msg` for any exception raised in the block. -/
inductive InferParse (α : Type) where
  | ok (value : α)
  | err (msg : String)

/-- The five-agent catalog in its declared default order, exactly the
`selected_agents` list of the fallback branch of
`Coordinator.select_required_agents` (coordinator.py line 298). -/
def full_agent_catalog : List String :=
  ["RICO", "DAVID", "SAIMON", "CLOE", "SHEYLA"]

/-- The fallback selection built by `Coordinator.select_required_agents` when
any exception is raised in its `try` block (coordinator.py lines 294-309). -/
def fallback_selection (msg : String) : Selection :=
  { selected_agents := full_agent_catalog
    workflow_sequence :=
      [ { agent := "RICO", reason := some "fallback - todos agentes",
          cost_impact := some "low", skippable := none }
      , { agent := "DAVID", reason := some "fallback - todos agentes",
          cost_impact := some "medium", skippable := none }
      , { agent := "SAIMON", reason := some "fallback - todos agentes",
          cost_impact := some "high", skippable := none }
      , { agent := "CLOE", reason := some "fallback - todos agentes",
          cost_impact := some "medium", skippable := none }
      , { agent := "SHEYLA", reason := some "fallback - todos agentes",
          cost_impact := some "medium", skippable := none } ]
    skipped_agents := []
    selection_method := some "fallback_all"
    error := some msg }

/-- `Coordinator.select_required_agents` (coordinator.py lines 159-309): the
whole `try` block sends the prompt and parses the response; a successfully
parsed selection is returned unchanged (no validation of the agent names
against any catalog); any exception yields the full-catalog fallback. -/
def select_required_agents (outcome : InferParse Selection) : Selection :=
  match outcome with
  | .ok sel => sel
  | .err msg => fallback_selection msg

/-- One step of `workflow_plan['workflow_steps']` as built by
`Coordinator.create_workflow_plan` (coordinator.py lines 594-604).  The
`created_at` wall-clock field is omitted (never read). -/
structure Step where
  step_number : Nat
  agent : String
  description : String
  cost_impact : String
  status : Status
  required : Bool
  dependencies : List Nat
  estimated_duration : Nat
deriving DecidableEq, Repr

/-- One value of the `workflow_plan['step_tracking']` dict
(coordinator.py lines 607-614). -/
structure TrackInfo where
  step_number : Nat
  status : Status
  started_at : Option Nat
  completed_at : Option Nat
  feedback_received : Bool
  evaluation_score : Option ℚ
deriving DecidableEq, Repr

/-- The workflow plan persisted to `workflow_plan.json`
(`Coordinator.create_workflow_plan`).  `step_tracking` is a JSON object,
modelled as an association list with Python-dict semantics (assignment to an
existing key replaces in place, to a new key appends).  Identification and
metadata fields not read by any modelled operation (`workflow_id`,
`created_at`, `user_instruction`, `content_type`, `target_duration`,
`optimization_summary`, `estimated_cost`) are omitted. -/
structure WorkflowPlan where
  selected_agents : List String
  skipped_agents : List String
  workflow_steps : List Step
  step_tracking : List (String × TrackInfo)
deriving DecidableEq, Repr

/-- Association-list lookup with Python-dict key semantics
(string equality, first match). -/
def lookupA {α : Type} : List (String × α) → String → Option α
  | [], _ => none
  | (k, v) :: rest, key => if k = key then some v else lookupA rest key

/-- Python-dict assignment `m[k] = v`: replace in place if the key exists,
append otherwise. -/
def dict_insert {α : Type} : List (String × α) → String → α → List (String × α)
  | [], k, v => [(k, v)]
  | (k0, v0) :: rest, k, v =>
      if k0 = k then (k, v) :: rest else (k0, v0) :: dict_insert rest k v

/-- `Coordinator._estimate_step_duration` (coordinator.py lines 624-633). -/
def estimate_step_duration (agent_name : String) : Nat :=
  if agent_name = "RICO" then 30
  else if agent_name = "DAVID" then 120
  else if agent_name = "SAIMON" then 180
  else if agent_name = "CLOE" then 150
  else if agent_name = "SHEYLA" then 90
  else 60

/-- The step dict built for one `workflow_sequence` item at a given
`step_number` (coordinator.py lines 594-604). -/
def mkStep (step_number : Nat) (item : WorkflowItem) : Step :=
  { step_number := step_number
    agent := item.agent
    description := item.reason.getD ("Processamento por " ++ item.agent)
    cost_impact := item.cost_impact.getD "medium"
    status := Status.PENDING
    required := !(item.skippable.getD false)
    dependencies := if step_number = 1 then [] else [step_number - 1]
    estimated_duration := estimate_step_duration item.agent }

/-- The initial `step_tracking` value for a step
(coordinator.py lines 607-614). -/
def initial_track (step_number : Nat) : TrackInfo :=
  { step_number := step_number
    status := Status.PENDING
    started_at := none
    completed_at := none
    feedback_received := false
    evaluation_score := none }

/-- The `for workflow_item in workflow_sequence` loop of
`create_workflow_plan` building `workflow_steps`, with `step_number` starting
at `n` (the source starts at 1 and increments per item). -/
def build_steps : Nat → List WorkflowItem → List Step
  | _, [] => []
  | n, item :: rest => mkStep n item :: build_steps (n + 1) rest

/-- The same loop's effect on the `step_tracking` dict. -/
def build_tracking : Nat → List WorkflowItem →
    List (String × TrackInfo) → List (String × TrackInfo)
  | _, [], acc => acc
  | n, item :: rest, acc =>
      build_tracking (n + 1) rest (dict_insert acc item.agent (initial_track n))

/-- `Coordinator.create_workflow_plan` (coordinator.py lines 568-622),
restricted to the fields read by the modelled operations. -/
def create_workflow_plan (sel : Selection) : WorkflowPlan :=
  { selected_agents := sel.selected_agents
    skipped_agents := sel.skipped_agents.map SkippedAgent.agent
    workflow_steps := build_steps 1 sel.workflow_sequence
    step_tracking := build_tracking 1 sel.workflow_sequence [] }

/-- The `feedback_data` dict passed to `update_workflow_step`; only its
`overall_score` key is read (with `.get`, so possibly absent). -/
structure FeedbackData where
  overall_score : Option ℚ
deriving DecidableEq, Repr

/-- First step of `workflow_steps` whose `agent` equals the given name
(the `for step in ...: if step.agent == agent_name: ...; break` pattern). -/
def find_step : List Step → String → Option Step
  | [], _ => none
  | s :: rest, agent => if s.agent = agent then some s else find_step rest agent

/-- Status of the first step with the given agent name. -/
def step_status (steps : List Step) (agent : String) : Option Status :=
  (find_step steps agent).map Step.status

/-- Sets the status of the first step whose `agent` matches, leaving every
other step untouched (coordinator.py lines 667-670: the loop assigns and
`break`s at the first match). -/
def set_step_status : List Step → String → Status → List Step
  | [], _, _ => []
  | s :: rest, agent, status =>
      if s.agent = agent then { s with status := status } :: rest
      else s :: set_step_status rest agent status

/-- First step of the list whose `step_number` equals `n`
(`next((s for s in steps if s['step_number'] == dep), None)`). -/
def find_step_by_number : List Step → Nat → Option Step
  | [], _ => none
  | s :: rest, n => if s.step_number = n then some s else find_step_by_number rest n

/-- The dependency scan of `Coordinator._check_next_steps`
(coordinator.py lines 691-696): every listed dependency step must exist and
be COMPLETED; the source breaks at the first violation, which computes the
same value as this conjunction. -/
def dependencies_met (steps : List Step) : List Nat → Bool
  | [] => true
  | d :: rest =>
      match find_step_by_number steps d with
      | none => false
      | some dep_step =>
          if dep_step.status = Status.COMPLETED then dependencies_met steps rest
          else false

/-- First PENDING step in list order; `Coordinator._check_next_steps` breaks
out of its loop at this step whether or not its dependencies are met. -/
def first_pending : List Step → Option Step
  | [] => none
  | s :: rest => if s.status = Status.PENDING then some s else first_pending rest

/-- `Coordinator._check_next_steps` (coordinator.py lines 686-700): the step,
if any, announced as available.  The source examines only the first PENDING
step in list order (the `break` is inside the `if PENDING` branch) and
announces it exactly when its dependencies are all COMPLETED. -/
def check_next_steps (steps : List Step) : Option Step :=
  match first_pending steps with
  | none => none
  | some s => if dependencies_met steps s.dependencies then some s else none

/-- The mutation `update_workflow_step` performs on the tracking entry of the
named agent (coordinator.py lines 653-664): record the new status, stamp
`started_at` on a PENDING to IN_PROGRESS move, stamp `completed_at` (and the
feedback fields when feedback was passed) on COMPLETED or FAILED. -/
def update_track (info : TrackInfo) (status : Status)
    (feedback_data : Option FeedbackData) (now : Nat) : TrackInfo :=
  if status = Status.IN_PROGRESS ∧ info.status = Status.PENDING then
    { info with status := status, started_at := some now }
  else if status = Status.COMPLETED ∨ status = Status.FAILED then
    match feedback_data with
    | some fd =>
        { info with status := status, completed_at := some now,
                    feedback_received := true,
                    evaluation_score := fd.overall_score }
    | none => { info with status := status, completed_at := some now }
  else { info with status := status }

/-- `Coordinator.update_workflow_step` (coordinator.py lines 635-684) on a
loaded plan.  `none` models "returned False" (unknown agent; the plan file is
left unchanged), `some plan2` models "returned True with the updated plan
saved".  The missing-file and unreadable-file cases are the caller's concern
(this function receives the loaded plan).  Note: no dependency check of any
kind is performed before applying the status; the trailing
`_check_next_steps` call only prints. -/
def update_workflow_step (plan : WorkflowPlan) (agent_name : String)
    (status : Status) (feedback_data : Option FeedbackData) (now : Nat) :
    Option WorkflowPlan :=
  match lookupA plan.step_tracking agent_name with
  | none => none
  | some info =>
      some { plan with
              step_tracking := dict_insert plan.step_tracking agent_name
                (update_track info status feedback_data now)
              workflow_steps := set_step_status plan.workflow_steps agent_name status }

/-- `PipelineOrchestrator._update_step_status` (pipeline_orchestrator.py
lines 297-306): delegates to `update_workflow_step` and swallows a False
return (the persisted plan is then unchanged). -/
def apply_status_update (plan : WorkflowPlan) (agent : String) (status : Status)
    (now : Nat) : WorkflowPlan :=
  (update_workflow_step plan agent status none now).getD plan

/-- The step loop of `PipelineOrchestrator.execute_pipeline`
(pipeline_orchestrator.py lines 206-242), parameterised by the set of
instantiated agents (`active_agents` keys), the external executor outcome
(`_execute_agent` returns Bool, False also on any exception) and the loaded
plan whose persisted statuses are updated.  The feedback-processing call on
success (`_process_agent_feedback`) only appends to the in-memory execution
log and never touches step statuses, so it is dropped.  The returned Bool is
the method's return value. -/
def execute_steps (active : List String) (ex : String → Bool) (now : Nat) :
    WorkflowPlan → List Step → WorkflowPlan × Bool
  | plan, [] => (plan, true)
  | plan, step :: rest =>
      if step.agent ∈ active then
        let plan1 := apply_status_update plan step.agent Status.IN_PROGRESS now
        if ex step.agent then
          execute_steps active ex now
            (apply_status_update plan1 step.agent Status.COMPLETED now) rest
        else
          let plan2 := apply_status_update plan1 step.agent Status.FAILED now
          if step.required then (plan2, false)
          else execute_steps active ex now plan2 rest
      else
        execute_steps active ex now
          (apply_status_update plan step.agent Status.SKIPPED now) rest

/-- `PipelineOrchestrator.execute_pipeline` iterates over the loaded
workflow's `workflow_steps`. -/
def execute_pipeline (active : List String) (ex : String → Bool)
    (plan : WorkflowPlan) (now : Nat) : WorkflowPlan × Bool :=
  execute_steps active ex now plan plan.workflow_steps

/-- The plan after a step's executor failed: IN_PROGRESS is applied first,
then FAILED (pipeline_orchestrator.py lines 218 and 229). -/
def mark_failed (plan : WorkflowPlan) (agent : String) (now : Nat) : WorkflowPlan :=
  apply_status_update
    (apply_status_update plan agent Status.IN_PROGRESS now) agent Status.FAILED now

/-- An evaluation dict as produced by `Coordinator.evaluate_agent_work`
(either parsed from the inference response or built by the fallback branch).
Keys are read downstream with `.get`, hence the `Option` fields; response
keys not read by any modelled operation (category scores, strengths,
recommendations) are omitted. -/
structure Evaluation where
  agent_evaluated : String
  overall_score : Option ℚ
  coordinator_decision : Option String
  requires_reprocessing : Option Bool
  evaluation_method : Option String
  error : Option String
deriving DecidableEq, Repr

/-- `Coordinator.evaluate_agent_work` (coordinator.py lines 833-976): a
successfully parsed evaluation is returned unchanged; any exception in the
`try` block yields the conservative fallback with `overall_score = 0.7`,
decision APPROVE, no reprocessing, and the marker
`evaluation_method = 'fallback_basic'` (lines 966-976). -/
def evaluate_agent_work (agent_name : String)
    (outcome : InferParse Evaluation) : Evaluation :=
  match outcome with
  | .ok ev => ev
  | .err msg =>
      { agent_evaluated := agent_name
        overall_score := some (7 / 10 : ℚ)
        coordinator_decision := some "APPROVE"
        requires_reprocessing := some false
        evaluation_method := some "fallback_basic"
        error := some msg }

/-- The `pipeline_summary` object of the final report built by
`Coordinator.generate_coordinator_report` (coordinator.py lines 1003-1009),
with exactly the source dict's fields. -/
structure PipelineSummary where
  total_agents_evaluated : Nat
  agents_approved : Nat
  average_pipeline_score : ℚ
  pipeline_status : String
  requires_reprocessing : Bool
deriving DecidableEq, Repr

/-- The literal key list of the `pipeline_summary` dict written by
`generate_coordinator_report` (coordinator.py lines 1003-1009); the report
has no other field describing the evaluation collection. -/
def pipeline_summary_keys : List String :=
  ["total_agents_evaluated", "agents_approved", "average_pipeline_score",
   "pipeline_status", "requires_reprocessing"]

/-- The aggregation core of `Coordinator.generate_coordinator_report`
(coordinator.py lines 992-1008): counts, guarded mean, status and
reprocessing flag.  The strengths/weaknesses consolidation and the report
file path do not bear on any claim and are omitted. -/
def generate_coordinator_report (evals : List Evaluation) : PipelineSummary :=
  let total_agents := evals.length
  let approved_agents :=
    (evals.filter (fun e => e.coordinator_decision = some "APPROVE")).length
  let average_score : ℚ :=
    if total_agents > 0 then
      ((evals.map (fun e => e.overall_score.getD 0)).sum) / total_agents
    else 0
  let needs_reprocessing :=
    (evals.filter (fun e => e.requires_reprocessing.getD false)).length
  { total_agents_evaluated := total_agents
    agents_approved := approved_agents
    average_pipeline_score := average_score
    pipeline_status :=
      if approved_agents = total_agents then "COMPLETED" else "NEEDS_ATTENTION"
    requires_reprocessing := needs_reprocessing > 0 }

/-!  Theorems.  Each claim of the frozen claim list gets exactly one theorem
(plus, where the claim fails on the code, a concrete counterexample). -/

/-- A concrete parsed selection naming an agent that is not in the five-agent
catalog. -/
def selUnknownStage : Selection :=
  { selected_agents := ["BOB"]
    workflow_sequence :=
      [ { agent := "BOB", reason := some "montagem final",
          cost_impact := some "low", skippable := none } ]
    skipped_agents := []
    selection_method := none
    error := none }

/-- C3 counterexample: the claim says a response naming a stage absent from
the catalog makes `select_required_agents` fall back to the full catalog with
the failure reason recorded.  In the code no catalog validation exists: the
parsed response naming the unknown agent "BOB" is returned unchanged, its
`selected_agents` is not the catalog, and no failure reason is recorded. -/
theorem claim_C3_counterexample :
    select_required_agents (.ok selUnknownStage) = selUnknownStage ∧
    "BOB" ∉ full_agent_catalog ∧
    (select_required_agents (.ok selUnknownStage)).selected_agents ≠
      full_agent_catalog ∧
    (select_required_agents (.ok selUnknownStage)).error = none :=
  ⟨rfl, by decide, by decide, rfl⟩

/-- C3 (amended): only an inference-call error or an unparseable response
makes `select_required_agents` fall back to the whole five-agent catalog in
its declared default order, with `skipped_agents` empty, the failure reason
recorded in `error`, and the fallback marked; a response that parses is
returned as-is, with no validation of its stage names against the catalog. -/
theorem claim_C3_fallback (msg : String) :
    (select_required_agents (.err msg)).selected_agents = full_agent_catalog ∧
    (select_required_agents (.err msg)).skipped_agents = [] ∧
    (select_required_agents (.err msg)).error = some msg ∧
    (select_required_agents (.err msg)).selection_method = some "fallback_all" ∧
    ∀ sel : Selection, select_required_agents (.ok sel) = sel :=
  ⟨rfl, rfl, rfl, rfl, fun _ => rfl⟩

/-- C4: whenever the evaluator's inference call fails or its response cannot
be parsed, `evaluate_agent_work` returns the fallback evaluation with
`overall_score = 0.7`, decision APPROVE, `requires_reprocessing = false`, and
the explicit marker `evaluation_method = "fallback_basic"` (plus the error
text), which distinguishes it from a parsed evaluation. -/
theorem claim_C4_fallback_evaluation (agent_name msg : String) :
    (evaluate_agent_work agent_name (.err msg)).overall_score =
      some (7 / 10 : ℚ) ∧
    (evaluate_agent_work agent_name (.err msg)).coordinator_decision =
      some "APPROVE" ∧
    (evaluate_agent_work agent_name (.err msg)).requires_reprocessing =
      some false ∧
    (evaluate_agent_work agent_name (.err msg)).evaluation_method =
      some "fallback_basic" ∧
    (evaluate_agent_work agent_name (.err msg)).error = some msg :=
  ⟨rfl, rfl, rfl, rfl, rfl⟩

/-- C8: for a non-empty list of evaluations, the final report's
`pipeline_status` is COMPLETED exactly when every evaluation's
`coordinator_decision` is APPROVE, and NEEDS_ATTENTION otherwise. -/
theorem claim_C8_pipeline_status (evals : List Evaluation) (_hne : evals ≠ []) :
    (generate_coordinator_report evals).pipeline_status = "COMPLETED" ↔
      ∀ e ∈ evals, e.coordinator_decision = some "APPROVE" := by
  have hmain :
      ((evals.filter fun e => e.coordinator_decision = some "APPROVE").length
          = evals.length) ↔
        ∀ e ∈ evals, e.coordinator_decision = some "APPROVE" := by
    simpa only [decide_eq_true_eq] using
      List.filter_length_eq_length
        (p := fun e => decide (e.coordinator_decision = some "APPROVE"))
        (l := evals)
  show (if (evals.filter fun e =>
            e.coordinator_decision = some "APPROVE").length = evals.length
        then "COMPLETED" else "NEEDS_ATTENTION") = "COMPLETED" ↔ _
  split_ifs with h
  · exact iff_of_true rfl (hmain.mp h)
  · exact iff_of_false (by decide) (fun hall => h (hmain.mpr hall))

/-- A concrete approved evaluation. -/
def evalApprove : Evaluation :=
  { agent_evaluated := "DAVID"
    overall_score := some 1
    coordinator_decision := some "APPROVE"
    requires_reprocessing := some false
    evaluation_method := none
    error := none }

/-- C8 witness: on the singleton list holding one approved evaluation the
report's status is COMPLETED. -/
theorem claim_C8_pipeline_status_witness :
    (generate_coordinator_report [evalApprove]).pipeline_status = "COMPLETED" :=
  (claim_C8_pipeline_status [evalApprove] (by simp)).mpr (by
    intro e he
    rw [List.mem_singleton] at he
    rw [he]
    rfl)

/-- C9 counterexample: the claim says aggregating an empty evaluation list
yields `averageScore = 0` together with an explicit "no data" flag marking
the empty case.  The code's summary object carries exactly the five fields of
`pipeline_summary_keys` — none is a no-data flag — and on the empty list it
reads `pipeline_status = COMPLETED`, the same terminal status as a fully
approved run; the only trace of emptiness is the zero count. -/
theorem claim_C9_counterexample :
    generate_coordinator_report [] =
      { total_agents_evaluated := 0
        agents_approved := 0
        average_pipeline_score := 0
        pipeline_status := "COMPLETED"
        requires_reprocessing := false } ∧
    "no_data" ∉ pipeline_summary_keys :=
  ⟨rfl, by decide⟩

/-- C9 (amended): aggregating an empty evaluation list yields
`average_pipeline_score = 0` through the explicit emptiness guard (so no
division by zero can occur), with `total_agents_evaluated = 0` as the only
indication of the empty case; no dedicated "no data" flag exists and the
status field reads COMPLETED. -/
theorem claim_C9_empty_aggregate :
    (generate_coordinator_report []).average_pipeline_score = 0 ∧
    (generate_coordinator_report []).total_agents_evaluated = 0 ∧
    (generate_coordinator_report []).pipeline_status = "COMPLETED" :=
  ⟨rfl, rfl, rfl⟩

/-- Element `n` of the step list built by the `create_workflow_plan` loop,
when numbering starts at `k`. -/
theorem build_steps_getElem (seq : List WorkflowItem) :
    ∀ k n, (build_steps k seq)[n]? = (seq[n]?).map (fun item => mkStep (k + n) item) := by
  induction seq with
  | nil => intro k n; simp [build_steps]
  | cons item rest ih =>
      intro k n
      cases n with
      | zero => simp [build_steps]
      | succ m =>
          have harith : k + 1 + m = k + (m + 1) := by omega
          simp only [build_steps, List.getElem?_cons_succ]
          rw [ih (k + 1) m, harith]

/-- The step-building loop produces one step per `workflow_sequence` item. -/
theorem build_steps_length (seq : List WorkflowItem) :
    ∀ k, (build_steps k seq).length = seq.length := by
  induction seq with
  | nil => intro k; rfl
  | cons item rest ih => intro k; simp [build_steps, ih (k + 1)]

/-- The step agents are the `workflow_sequence` agents, in order. -/
theorem build_steps_map_agent (seq : List WorkflowItem) :
    ∀ k, (build_steps k seq).map Step.agent = seq.map WorkflowItem.agent := by
  induction seq with
  | nil => intro k; rfl
  | cons item rest ih => intro k; simp [build_steps, mkStep, ih (k + 1)]

/-- An agent selection whose `workflow_sequence` does not line up with its
`selected_agents` (the code never checks that they do). -/
def selMismatch : Selection :=
  { selected_agents := ["RICO", "DAVID"]
    workflow_sequence :=
      [ { agent := "RICO", reason := some "criar chunks",
          cost_impact := some "low", skippable := none } ]
    skipped_agents := []
    selection_method := none
    error := none }

/-- C5 counterexample: the claim says every accepted `agent_selection` yields
a plan whose `workflow_steps` has the same length as `selected_agents` with
agents mapped 1:1 in order.  `create_workflow_plan` builds steps from
`workflow_sequence` alone and never compares it with `selected_agents`; a
selection listing two agents but a one-item sequence yields one step. -/
theorem claim_C5_counterexample :
    (create_workflow_plan selMismatch).workflow_steps.length ≠
      selMismatch.selected_agents.length ∧
    (create_workflow_plan selMismatch).workflow_steps.map Step.agent ≠
      selMismatch.selected_agents := by
  constructor <;> decide

/-- C5 (amended): the plan's `workflow_steps` is a 1:1, order-preserving
image of `workflow_sequence` (one step per sequence item, with that item's
agent); it coincides with `selected_agents` only when the inference response
happens to make `workflow_sequence` list exactly the `selected_agents`. -/
theorem claim_C5_steps_match_sequence (sel : Selection) :
    (create_workflow_plan sel).workflow_steps.length =
      sel.workflow_sequence.length ∧
    (create_workflow_plan sel).workflow_steps.map Step.agent =
      sel.workflow_sequence.map WorkflowItem.agent :=
  ⟨build_steps_length sel.workflow_sequence 1,
   build_steps_map_agent sel.workflow_sequence 1⟩

/-- C10: in every plan built by `create_workflow_plan`, step 1 has no
dependencies and step n (n > 1) depends exactly on step n-1 (Lean indexing:
element `n` carries `step_number = n + 1` and dependencies `[n]` for n > 0),
and each step's `required` flag is the negation of the response item's
`skippable` flag, whose absence defaults to `false` — the code's uniform
default skippability. -/
theorem claim_C10_linear_chain_defaults (sel : Selection) (n : Nat) :
    ((create_workflow_plan sel).workflow_steps[n]?).map Step.step_number =
      (sel.workflow_sequence[n]?).map (fun _ => n + 1) ∧
    ((create_workflow_plan sel).workflow_steps[n]?).map Step.dependencies =
      (sel.workflow_sequence[n]?).map
        (fun _ => if n = 0 then ([] : List Nat) else [n]) ∧
    ((create_workflow_plan sel).workflow_steps[n]?).map Step.required =
      (sel.workflow_sequence[n]?).map (fun item => !(item.skippable.getD false)) := by
  have h := build_steps_getElem sel.workflow_sequence 1 n
  show ((build_steps 1 sel.workflow_sequence)[n]?).map Step.step_number = _ ∧
       ((build_steps 1 sel.workflow_sequence)[n]?).map Step.dependencies = _ ∧
       ((build_steps 1 sel.workflow_sequence)[n]?).map Step.required = _
  rw [h]
  cases hx : sel.workflow_sequence[n]? with
  | none => simp
  | some item =>
      refine ⟨by simp [mkStep]; omega, ?_, by simp [mkStep]⟩
      cases n with
      | zero => simp [mkStep]
      | succ m =>
          simp only [Option.map_some, mkStep]
          have h1 : ¬ (1 + (m + 1) = 1) := by omega
          have h2 : ¬ (m + 1 = 0) := by omega
          simp [h1, h2]

/-- Looking up a key right after a Python-dict assignment. -/
theorem lookupA_dict_insert {α : Type} (m : List (String × α)) (k : String)
    (v : α) (a : String) :
    lookupA (dict_insert m k v) a = if k = a then some v else lookupA m a := by
  induction m with
  | nil => simp [dict_insert, lookupA]
  | cons p rest ih =>
      obtain ⟨k0, v0⟩ := p
      by_cases h0 : k0 = k
      · subst h0
        simp only [dict_insert, if_pos rfl, lookupA]
        split_ifs <;> simp_all [lookupA]
      · simp only [dict_insert, if_neg h0, lookupA, ih]
        split_ifs <;> simp_all
  
/-- The tracking mutation always records exactly the requested status. -/
theorem update_track_status (info : TrackInfo) (status : Status)
    (fd : Option FeedbackData) (now : Nat) :
    (update_track info status fd now).status = status := by
  unfold update_track
  split_ifs
  · rfl
  · cases fd <;> rfl
  · rfl


/-- The concrete sequence items used by the counterexample plans. -/
def itemRICO : WorkflowItem :=
  { agent := "RICO", reason := some "criar chunks",
    cost_impact := some "low", skippable := none }

def itemDAVID : WorkflowItem :=
  { agent := "DAVID", reason := some "limpar audio",
    cost_impact := some "medium", skippable := none }

def itemSAIMON : WorkflowItem :=
  { agent := "SAIMON", reason := some "selecionar momentos",
    cost_impact := some "high", skippable := none }

def itemCLOE : WorkflowItem :=
  { agent := "CLOE", reason := some "edicao dinamica",
    cost_impact := some "medium", skippable := none }

/-- A two-agent selection: RICO then DAVID, DAVID depending on step 1. -/
def selTwo : Selection :=
  { selected_agents := ["RICO", "DAVID"]
    workflow_sequence := [itemRICO, itemDAVID]
    skipped_agents := []
    selection_method := none
    error := none }

/-- The plan `create_workflow_plan` builds for `selTwo`: two PENDING steps,
step 2 (DAVID) depending on step 1 (RICO). -/
def examplePlanTwo : WorkflowPlan := create_workflow_plan selTwo

/-- C1 counterexample: the claim says moving a step to IN_PROGRESS fails with
a dependency error whenever some `dependsOn` step is not COMPLETED, and that
the rejected transition is not applied.  In `examplePlanTwo` the DAVID step
depends on step 1 (RICO), which is still PENDING, yet
`update_workflow_step "DAVID" IN_PROGRESS` succeeds (returns True) and the
transition is applied to the plan. -/
theorem claim_C1_counterexample :
    step_status examplePlanTwo.workflow_steps "RICO" = some Status.PENDING ∧
    (find_step examplePlanTwo.workflow_steps "DAVID").map Step.dependencies =
      some [1] ∧
    dependencies_met examplePlanTwo.workflow_steps [1] = false ∧
    (update_workflow_step examplePlanTwo "DAVID" Status.IN_PROGRESS none 0).map
      (fun p => step_status p.workflow_steps "DAVID") =
      some (some Status.IN_PROGRESS) :=
  ⟨rfl, rfl, rfl, rfl⟩

/-- C1 (amended): `update_workflow_step` performs no dependency check at all;
a transition into IN_PROGRESS succeeds and is applied to both the step list
and the tracking dict whenever the agent has a tracking entry — regardless of
the statuses of the step's dependencies — and fails only when the agent is
unknown (or the plan file is missing, which is outside this model). -/
theorem claim_C1_transition_unconditional (plan : WorkflowPlan)
    (agent : String) (now : Nat) :
    ((lookupA plan.step_tracking agent).isSome →
      ∃ plan2,
        update_workflow_step plan agent Status.IN_PROGRESS none now = some plan2 ∧
        (lookupA plan2.step_tracking agent).map TrackInfo.status =
          some Status.IN_PROGRESS ∧
        plan2.workflow_steps =
          set_step_status plan.workflow_steps agent Status.IN_PROGRESS) ∧
    (lookupA plan.step_tracking agent = none →
      update_workflow_step plan agent Status.IN_PROGRESS none now = none) := by
  constructor
  · intro h
    cases hl : lookupA plan.step_tracking agent with
    | none => rw [hl] at h; simp at h
    | some info =>
        refine ⟨{ plan with
            step_tracking := dict_insert plan.step_tracking agent
              (update_track info Status.IN_PROGRESS none now)
            workflow_steps := set_step_status plan.workflow_steps agent
              Status.IN_PROGRESS }, ?_, ?_, rfl⟩
        · unfold update_workflow_step
          rw [hl]
        · simp [lookupA_dict_insert, update_track_status]
  · intro h
    unfold update_workflow_step
    rw [h]

/-- C1 witness for the amended theorem: on `examplePlanTwo` the DAVID entry
exists, so the transition into IN_PROGRESS succeeds and is applied. -/
theorem claim_C1_transition_unconditional_witness :
    ∃ plan2,
      update_workflow_step examplePlanTwo "DAVID" Status.IN_PROGRESS none 0 =
        some plan2 ∧
      (lookupA plan2.step_tracking "DAVID").map TrackInfo.status =
        some Status.IN_PROGRESS ∧
      plan2.workflow_steps =
        set_step_status examplePlanTwo.workflow_steps "DAVID"
          Status.IN_PROGRESS :=
  (claim_C1_transition_unconditional examplePlanTwo "DAVID" 0).1 (by decide)

/-- A step announced by `first_pending` is PENDING. -/
theorem first_pending_status :
    ∀ (steps : List Step) (s : Step), first_pending steps = some s →
      s.status = Status.PENDING := by
  intro steps
  induction steps with
  | nil => intro s h; simp [first_pending] at h
  | cons t rest ih =>
      intro s h
      by_cases ht : t.status = Status.PENDING
      · rw [first_pending, if_pos ht] at h
        cases h
        exact ht
      · rw [first_pending, if_neg ht] at h
        exact ih s h

/-- A four-agent linear-chain selection used to exhibit the ready-step gap. -/
def selFour : Selection :=
  { selected_agents := ["RICO", "DAVID", "SAIMON", "CLOE"]
    workflow_sequence := [itemRICO, itemDAVID, itemSAIMON, itemCLOE]
    skipped_agents := []
    selection_method := none
    error := none }

/-- A reachable plan state: the four-step linear plan after the coordinator
recorded RICO as FAILED and SAIMON as COMPLETED (both via
`update_workflow_step`), leaving DAVID and CLOE PENDING. -/
def planFourPartial : WorkflowPlan :=
  apply_status_update
    (apply_status_update (create_workflow_plan selFour) "RICO" Status.FAILED 0)
    "SAIMON" Status.COMPLETED 0

/-- C6 counterexample: the claim says the ready-step query identifies the
lowest-numbered PENDING step whose dependencies are all COMPLETED.  In
`planFourPartial` step 4 (CLOE) is PENDING and its only dependency, step 3
(SAIMON), is COMPLETED — yet `_check_next_steps` announces nothing, because
it only ever examines the first PENDING step in list order (step 2, DAVID,
whose dependency FAILED) and then breaks out of its scan. -/
theorem claim_C6_counterexample :
    check_next_steps planFourPartial.workflow_steps = none ∧
    step_status planFourPartial.workflow_steps "CLOE" = some Status.PENDING ∧
    (find_step planFourPartial.workflow_steps "CLOE").map Step.dependencies =
      some [3] ∧
    dependencies_met planFourPartial.workflow_steps [3] = true :=
  ⟨rfl, rfl, rfl, rfl⟩

/-- C6 (amended): `_check_next_steps` examines only the first PENDING step in
list order and identifies it exactly when its dependencies are all COMPLETED;
in particular it never identifies a step whose status is not PENDING and
never identifies a step with an unmet dependency, but it identifies nothing
at all when the first PENDING step is blocked, even if a later PENDING step
has all its dependencies COMPLETED. -/
theorem claim_C6_ready_step (steps : List Step) (s : Step)
    (h : check_next_steps steps = some s) :
    first_pending steps = some s ∧
    s.status = Status.PENDING ∧
    dependencies_met steps s.dependencies = true := by
  cases hf : first_pending steps with
  | none =>
      have hnone : check_next_steps steps = none := by
        unfold check_next_steps; rw [hf]
      rw [hnone] at h
      exact absurd h (by simp)
  | some t =>
      have h2 : (if dependencies_met steps t.dependencies = true then some t
                 else none) = some s := by
        have heq : check_next_steps steps =
            (if dependencies_met steps t.dependencies = true then some t
             else none) := by
          unfold check_next_steps; rw [hf]
        rw [heq] at h
        exact h
      by_cases hd : dependencies_met steps t.dependencies = true
      · rw [if_pos hd] at h2
        obtain rfl : t = s := by injection h2
        exact ⟨rfl, first_pending_status steps t hf, hd⟩
      · rw [if_neg hd] at h2
        exact absurd h2 (by simp)

/-- C6 witness: on the freshly created two-step plan the query identifies
step 1 (RICO), which is PENDING with no dependencies. -/
theorem claim_C6_ready_step_witness :
    first_pending examplePlanTwo.workflow_steps = some (mkStep 1 itemRICO) ∧
    (mkStep 1 itemRICO).status = Status.PENDING ∧
    dependencies_met examplePlanTwo.workflow_steps
      (mkStep 1 itemRICO).dependencies = true :=
  claim_C6_ready_step examplePlanTwo.workflow_steps (mkStep 1 itemRICO) rfl

/-- Setting a status and then looking the same agent up yields the original
step with only its status changed. -/
theorem find_step_set_same (steps : List Step) (ag : String) (st : Status) :
    find_step (set_step_status steps ag st) ag =
      (find_step steps ag).map (fun s => { s with status := st }) := by
  induction steps with
  | nil => rfl
  | cons s rest ih =>
      by_cases h : s.agent = ag
      · simp [set_step_status, find_step, h]
      · simp [set_step_status, find_step, h, ih]

/-- Setting one agent's status leaves every other agent's first step
untouched. -/
theorem find_step_set_ne (steps : List Step) (ag : String) (st : Status)
    (a : String) (h : a ≠ ag) :
    find_step (set_step_status steps ag st) a = find_step steps a := by
  induction steps with
  | nil => rfl
  | cons s rest ih =>
      by_cases hs : s.agent = ag
      · have hga : ¬ ag = a := fun he => h he.symm
        simp [set_step_status, find_step, hs, hga]
      · by_cases hsa : s.agent = a
        · simp [set_step_status, find_step, hs, hsa, h]
        · simp [set_step_status, find_step, hs, hsa, ih]

/-- The orchestrator's status write updates the persisted step list exactly
when the agent has a tracking entry. -/
theorem apply_update_steps (plan : WorkflowPlan) (ag : String) (st : Status)
    (now : Nat) (h : (lookupA plan.step_tracking ag).isSome) :
    (apply_status_update plan ag st now).workflow_steps =
      set_step_status plan.workflow_steps ag st := by
  unfold apply_status_update update_workflow_step
  cases hl : lookupA plan.step_tracking ag with
  | none => rw [hl] at h; simp at h
  | some info => rfl

/-- The orchestrator's status write preserves which agents have a tracking
entry. -/
theorem apply_update_track_isSome (plan : WorkflowPlan) (ag : String)
    (st : Status) (now : Nat) (a : String) :
    (lookupA (apply_status_update plan ag st now).step_tracking a).isSome =
      (lookupA plan.step_tracking a).isSome := by
  unfold apply_status_update update_workflow_step
  cases hl : lookupA plan.step_tracking ag with
  | none => rfl
  | some info =>
      show (lookupA (dict_insert plan.step_tracking ag
              (update_track info st none now)) a).isSome =
        (lookupA plan.step_tracking a).isSome
      rw [lookupA_dict_insert]
      split_ifs with hk
      · subst hk; simp [hl]
      · rfl

/-- C2: during `execute_pipeline`, when the executor of an instantiated step
fails, the step is marked FAILED (the persisted plan records IN_PROGRESS then
FAILED for its agent, final status FAILED); if the step is required the loop
returns immediately with False and every other agent's step keeps exactly the
status it already had; if the step is not required, execution continues with
the remaining steps from the FAILED-marked plan.  The hypotheses say the
failing step's agent is instantiated, its executor reports failure, and the
agent appears in the plan's step list and tracking dict (true of every plan
built by `create_workflow_plan` for its own sequence agents). -/
theorem claim_C2_executor_failure (active : List String) (ex : String → Bool)
    (now : Nat) (plan : WorkflowPlan) (step : Step) (rest : List Step)
    (hact : step.agent ∈ active) (hex : ex step.agent = false)
    (htrack : (lookupA plan.step_tracking step.agent).isSome)
    (hfind : (find_step plan.workflow_steps step.agent).isSome) :
    step_status (mark_failed plan step.agent now).workflow_steps step.agent =
      some Status.FAILED ∧
    (step.required = true →
      execute_steps active ex now plan (step :: rest) =
        (mark_failed plan step.agent now, false) ∧
      ∀ a, a ≠ step.agent →
        step_status (mark_failed plan step.agent now).workflow_steps a =
          step_status plan.workflow_steps a) ∧
    (step.required = false →
      execute_steps active ex now plan (step :: rest) =
        execute_steps active ex now (mark_failed plan step.agent now) rest) := by
  have htrack1 : (lookupA (apply_status_update plan step.agent
      Status.IN_PROGRESS now).step_tracking step.agent).isSome := by
    rw [apply_update_track_isSome]
    exact htrack
  have hsteps2 : (mark_failed plan step.agent now).workflow_steps =
      set_step_status
        (set_step_status plan.workflow_steps step.agent Status.IN_PROGRESS)
        step.agent Status.FAILED := by
    unfold mark_failed
    rw [apply_update_steps _ _ _ _ htrack1,
        apply_update_steps _ _ _ _ htrack]
  refine ⟨?_, ?_, ?_⟩
  · rw [hsteps2]
    unfold step_status
    rw [find_step_set_same, find_step_set_same]
    obtain ⟨s0, hs0⟩ := Option.isSome_iff_exists.mp hfind
    rw [hs0]
    rfl
  · intro hreq
    constructor
    · simp [execute_steps, hact, hex, hreq, mark_failed]
    · intro a ha
      rw [hsteps2]
      unfold step_status
      rw [find_step_set_ne _ _ _ _ ha, find_step_set_ne _ _ _ _ ha]
  · intro hreq
    simp [execute_steps, hact, hex, hreq, mark_failed]

/-- C2 witness: the single-step plan for RICO (required), with RICO
instantiated and its executor failing: the run returns False and the RICO
step is FAILED. -/
theorem claim_C2_executor_failure_witness :
    (execute_steps ["RICO"] (fun _ => false) 0 examplePlanTwo
        [mkStep 1 itemRICO]).2 = false ∧
    step_status (mark_failed examplePlanTwo "RICO" 0).workflow_steps "RICO" =
      some Status.FAILED := by
  have h := claim_C2_executor_failure ["RICO"] (fun _ => false) 0
    examplePlanTwo (mkStep 1 itemRICO) [] (by decide) rfl (by decide) (by decide)
  refine ⟨?_, h.1⟩
  rw [(h.2.1 rfl).1]

/-- C7: a workflow step whose agent was never instantiated (absent from
`active_agents`) is marked SKIPPED and the loop simply continues — the step's
`required` flag is never consulted on this path.  Concretely, on the two-step
plan whose required DAVID step has no instantiated agent, the run still
returns True with DAVID merely SKIPPED. -/
theorem claim_C7_uninstantiated_skipped (active : List String)
    (ex : String → Bool) (now : Nat) (plan : WorkflowPlan) (step : Step)
    (rest : List Step) (hnot : step.agent ∉ active) :
    execute_steps active ex now plan (step :: rest) =
      execute_steps active ex now
        (apply_status_update plan step.agent Status.SKIPPED now) rest ∧
    (execute_pipeline ["RICO"] (fun _ => true) examplePlanTwo 0).2 = true ∧
    step_status (execute_pipeline ["RICO"] (fun _ => true)
        examplePlanTwo 0).1.workflow_steps "DAVID" = some Status.SKIPPED ∧
    (find_step examplePlanTwo.workflow_steps "DAVID").map Step.required =
      some true := by
  refine ⟨?_, rfl, rfl, rfl⟩
  simp [execute_steps, hnot]

/-- C7 witness: with only RICO instantiated, the required DAVID step is
skipped and the loop moves on. -/
theorem claim_C7_uninstantiated_skipped_witness :
    execute_steps ["RICO"] (fun _ => true) 0 examplePlanTwo
        [mkStep 2 itemDAVID] =
      execute_steps ["RICO"] (fun _ => true) 0
        (apply_status_update examplePlanTwo "DAVID" Status.SKIPPED 0) [] :=
  (claim_C7_uninstantiated_skipped ["RICO"] (fun _ => true) 0 examplePlanTwo
    (mkStep 2 itemDAVID) [] (by decide)).1
